import Mathlib

/-!
Shallow embedding of the MLOps_Inference feature pipeline and serving path.

Sources embedded:
* `src/services/serving/service.py` — the Feast fetch with graceful
  degradation, the input validation of `recommend`, the feature-based score
  boosting, and the candidate ranking.
* `src/services/feature_engineering/feature_engineer.py` — batch feature
  compilation (per-entity aggregates, quality score, favorite genre) and the
  streaming feature accumulator.

Modelling conventions: Python dictionaries become association lists, float
arithmetic is modelled exactly over ℚ, and the pandas NaN produced by the
standard deviation of a singleton group is modelled as `Option.none`.
-/

namespace Serving

/-- A feature dictionary as returned by the Feast service: string keys to
integer values (the only key the serving path reads is
`user_recent_activity`). -/
abbrev FeatureDict := List (String × Int)

/-- Python `dict.get(key, default)`. -/
def FeatureDict.getD (fs : FeatureDict) (k : String) (d : Int) : Int :=
  match fs with
  | [] => d
  | (k', v) :: rest => if k' = k then v else FeatureDict.getD rest k d

/-- Outcome of the HTTP call
`requests.get(f"{FEAST_URL}/feast/user/{user_idx}", timeout=1)` inside
`get_feast_features`: either the request raises (a timeout or any other
transport error, both caught by the same `except` clause), or it yields a
response carrying a status code and a `features` dictionary. -/
inductive FeastOutcome where
  | transportError
  | httpResponse (status : Nat) (features : FeatureDict)
deriving DecidableEq

/-- Embeds `get_feast_features` (`service.py` lines 40–69), as a function of whether
Feast is enabled and of the outcome of the underlying HTTP call.  Returns the
feature dictionary together with the number of increments applied to the
`feast_unavailable` error counter: the counter is bumped only in the
`except` branch; a non-200 response only prints and returns the empty dict. -/
def get_feast_features (enabled : Bool) (o : FeastOutcome) : FeatureDict × Nat :=
  if !enabled then ([], 0)
  else
    match o with
    | .transportError => ([], 1)
    | .httpResponse status features =>
        if status = 200 then (features, 0) else ([], 0)

/-- The boost factor of `recommend` (`service.py` lines 176–183): when the
feature dictionary is non-empty (Python truthiness of `feast_features`) and
`user_recent_activity > 0`, the factor is
`1 + min(recent_activity, 20) * 0.01`; otherwise the scores are untouched,
i.e. the factor is `1`. -/
def boost_factor (feast_features : FeatureDict) : ℚ :=
  if feast_features = [] then 1
  else
    let recent_activity := feast_features.getD "user_recent_activity" 0
    if recent_activity > 0 then 1 + ((min recent_activity 20 : Int) : ℚ) / 100
    else 1

/-- Mirrors `scores = scores * boost_factor` (numpy broadcasts the scalar over the
score vector). -/
def apply_boost (feast_features : FeatureDict) (scores : List ℚ) : List ℚ :=
  scores.map (fun s => s * boost_factor feast_features)

/-- The distinct `ValueError` classes of the `recommend` input validation,
tagged with the error-counter label the code increments alongside each. -/
inductive ValidationError where
  | invalid_user_idx
  | user_not_found
  | invalid_n_recommendations
deriving DecidableEq

/-- The input validation of `recommend` (`service.py` lines 144–157): the
checks run in order and the first failing one raises `ValueError`. -/
def validate_recommend (n_users user_idx n_recommendations : Int) :
    Option ValidationError :=
  if user_idx < 0 then some .invalid_user_idx
  else if user_idx ≥ n_users then some .user_not_found
  else if n_recommendations < 1 ∨ n_recommendations > 100 then
    some .invalid_n_recommendations
  else none

/-- The candidate-building and ranking tail of `recommend` (`service.py`
lines 185–194): enumerate `(movie_idx, score)`, drop movies the user already
rated, sort by score descending (`list.sort` with `reverse=True` is a stable
sort), and keep the top `n`. -/
def build_recommendations (scores : List ℚ) (user_movies : List Nat) (n : Nat) :
    List (Nat × ℚ) :=
  ((scores.enum.filter (fun p => !(user_movies.contains p.1))).mergeSort
      (fun a b => decide (b.2 ≤ a.2))).take n

/-- The scoring portion of `recommend` after validation (`service.py` lines
159–194): features are the fetched dictionary when `use_feast` is on and the
empty dictionary otherwise; the raw model scores are boosted and ranked. -/
def recommend_ranking (use_feast : Bool) (fetched : FeatureDict)
    (raw_scores : List ℚ) (user_movies : List Nat) (n : Nat) : List (Nat × ℚ) :=
  let feast_features := if use_feast then fetched else []
  build_recommendations (apply_boost feast_features raw_scores) user_movies n

end Serving

namespace Serving

/-- C1 counterexample: on a non-success HTTP status (500) the gateway fetch
returns the empty record but does not increment the `feast_unavailable`
counter, contradicting the claim that the counter is incremented on every
unavailability path (the code only prints in that branch). -/
theorem get_feast_features_500_no_counter :
    get_feast_features true (.httpResponse 500 []) = ([], 0) := rfl

/-- C1 (amended): on every failure of the underlying Feast call — a timeout
or transport error, or a non-success HTTP status — `get_feast_features`
returns the empty feature dictionary instead of propagating the failure, so
feature unavailability never fails the recommend call; the
`feast_unavailable` counter is incremented exactly on the timeout/transport
failures, not on non-success statuses. -/
theorem get_feast_features_degrades (o : FeastOutcome)
    (h : o = .transportError ∨ ∃ s fs, o = .httpResponse s fs ∧ s ≠ 200) :
    (get_feast_features true o).1 = [] ∧
      ((get_feast_features true o).2 = 1 ↔ o = .transportError) := by
  rcases h with h | ⟨s, fs, rfl, hs⟩
  · subst h; exact ⟨rfl, by simp [get_feast_features]⟩
  · refine ⟨?_, ?_⟩
    · simp [get_feast_features, hs]
    · simp [get_feast_features, hs]

/-- Witness for `get_feast_features_degrades` at the concrete outcome
`transportError`. -/
theorem get_feast_features_degrades_witness :
    (get_feast_features true .transportError).1 = [] ∧
      ((get_feast_features true .transportError).2 = 1 ↔
        FeastOutcome.transportError = .transportError) :=
  get_feast_features_degrades .transportError (Or.inl rfl)

/-- C10: `recommend` raises a `ValueError` before any scoring exactly when
`user_idx < 0`, `user_idx ≥ n_users`, `n_recommendations < 1` or
`n_recommendations > 100`; for every input inside these bounds no
input-validation error is raised. -/
theorem validate_recommend_none_iff (n_users user_idx n_recs : Int) :
    validate_recommend n_users user_idx n_recs = none ↔
      0 ≤ user_idx ∧ user_idx < n_users ∧ 1 ≤ n_recs ∧ n_recs ≤ 100 := by
  unfold validate_recommend
  split_ifs with h1 h2 h3
  all_goals simp_all
  all_goals omega

end Serving

namespace FeatureEngineering

/-- A Kafka event as consumed by `update_stream_features`: the code reads
`user_idx`, `movie_idx`, `event_type` and, when the key is present in the
event dictionary, `genres`. -/
structure Event where
  user_idx : Nat
  movie_idx : Nat
  event_type : String
  genres : Option String
deriving DecidableEq

/-- An integer-valued Python dictionary keyed by entity index
(`defaultdict(int)`). -/
abbrev CounterMap := List (Nat × Nat)

/-- Python `dict.get(key, default)` on a counter map. -/
def CounterMap.getD (m : CounterMap) (k : Nat) (d : Nat) : Nat :=
  match m with
  | [] => d
  | (k', v) :: rest => if k' = k then v else CounterMap.getD rest k d

/-- Plain dictionary lookup on the `user_last_genre` map. -/
def lookupGenre (m : List (Nat × String)) (k : Nat) : Option String :=
  match m with
  | [] => none
  | (k', v) :: rest => if k' = k then some v else lookupGenre rest k

/-- Python `m[k] += 1` on a `defaultdict(int)`: a missing key starts from 0. -/
def CounterMap.bump (m : CounterMap) (k : Nat) : CounterMap :=
  match m with
  | [] => [(k, 1)]
  | (k', v) :: rest =>
      if k' = k then (k', v + 1) :: rest else (k', v) :: CounterMap.bump rest k

/-- Python `m[k] = v` on a plain dictionary. -/
def setKey (m : List (Nat × String)) (k : Nat) (v : String) : List (Nat × String) :=
  match m with
  | [] => [(k, v)]
  | (k', v') :: rest =>
      if k' = k then (k', v) :: rest else (k', v') :: setKey rest k v

/-- The `self.stream_features` state of `FeatureEngineer`
(`feature_engineer.py` lines 20–25). -/
structure StreamFeatures where
  user_recent_activity : CounterMap
  movie_popularity : CounterMap
  user_last_genre : List (Nat × String)
  movie_recent_views : CounterMap
deriving DecidableEq

/-- The state built by `FeatureEngineer.__init__`: every map empty. -/
def initStreamFeatures : StreamFeatures := ⟨[], [], [], []⟩

/-- Embeds `update_stream_features` (`feature_engineer.py` lines 213–248), state
transition only (the dictionary the method returns is derived from the new
state and does not feed back into it). -/
def update_stream_features (s : StreamFeatures) (event : Event) : StreamFeatures :=
  let s1 := { s with
    user_recent_activity := s.user_recent_activity.bump event.user_idx }
  let s2 :=
    if event.event_type = "view" ∨ event.event_type = "click" then
      { s1 with
        movie_popularity := s1.movie_popularity.bump event.movie_idx,
        movie_recent_views := s1.movie_recent_views.bump event.movie_idx }
    else s1
  match event.genres with
  | some g => { s2 with user_last_genre := setKey s2.user_last_genre event.user_idx g }
  | none => s2

/-- Embeds `get_user_stream_features` (`feature_engineer.py` lines 250–256):
`dict.get` with defaults 0 and "Unknown"; the read is pure. -/
def get_user_stream_features (s : StreamFeatures) (user_idx : Nat) : Nat × String :=
  (s.user_recent_activity.getD user_idx 0,
   (lookupGenre s.user_last_genre user_idx).getD "Unknown")

/-- Embeds `get_movie_stream_features` (`feature_engineer.py` lines 258–264):
`movie_popularity` and `movie_recent_views` with default 0. -/
def get_movie_stream_features (s : StreamFeatures) (movie_idx : Nat) : Nat × Nat :=
  (s.movie_popularity.getD movie_idx 0, s.movie_recent_views.getD movie_idx 0)

theorem CounterMap.getD_bump_self (m : CounterMap) (k : Nat) :
    (m.bump k).getD k 0 = m.getD k 0 + 1 := by
  induction m with
  | nil => simp [CounterMap.bump, CounterMap.getD]
  | cons hd tl ih =>
      obtain ⟨k', v⟩ := hd
      by_cases h : k' = k
      · subst h; simp [CounterMap.bump, CounterMap.getD]
      · simpa [CounterMap.bump, CounterMap.getD, h] using ih

theorem CounterMap.getD_bump_other (m : CounterMap) (k k' : Nat) (h : k' ≠ k) :
    (m.bump k).getD k' 0 = m.getD k' 0 := by
  induction m with
  | nil => simp [CounterMap.bump, CounterMap.getD, Ne.symm h]
  | cons hd tl ih =>
      obtain ⟨k0, v⟩ := hd
      by_cases h0 : k0 = k
      · subst h0; simp [CounterMap.bump, CounterMap.getD, Ne.symm h]
      · by_cases h1 : k0 = k'
        · subst h1; simp [CounterMap.bump, CounterMap.getD, h0]
        · simpa [CounterMap.bump, CounterMap.getD, h0, h1] using ih

theorem lookupGenre_setKey_self (m : List (Nat × String)) (k : Nat) (v : String) :
    lookupGenre (setKey m k v) k = some v := by
  induction m with
  | nil => simp [setKey, lookupGenre]
  | cons hd tl ih =>
      obtain ⟨k', v'⟩ := hd
      by_cases h : k' = k
      · subst h; simp [setKey, lookupGenre]
      · simpa [setKey, lookupGenre, h] using ih

theorem lookupGenre_setKey_other (m : List (Nat × String)) (k k' : Nat) (v : String)
    (h : k' ≠ k) : lookupGenre (setKey m k v) k' = lookupGenre m k' := by
  induction m with
  | nil => simp [setKey, lookupGenre, Ne.symm h]
  | cons hd tl ih =>
      obtain ⟨k0, v'⟩ := hd
      by_cases h0 : k0 = k
      · subst h0; simp [setKey, lookupGenre, Ne.symm h]
      · by_cases h1 : k0 = k'
        · subst h1; simp [setKey, lookupGenre, h0]
        · simpa [setKey, lookupGenre, h0, h1] using ih

end FeatureEngineering

namespace FeatureEngineering

/-- The event of the spec's end-to-end scenario: `{user=1, type=view, item=7}`
with no genre tag. -/
def viewEvent : Event := ⟨1, 7, "view", none⟩

theorem update_preserves_other_ids (s : StreamFeatures) (e : Event) (uid mid : Nat)
    (hu : e.user_idx ≠ uid) (hm : e.movie_idx ≠ mid) :
    (update_stream_features s e).user_recent_activity.getD uid 0 =
        s.user_recent_activity.getD uid 0 ∧
      lookupGenre (update_stream_features s e).user_last_genre uid =
        lookupGenre s.user_last_genre uid ∧
      (update_stream_features s e).movie_popularity.getD mid 0 =
        s.movie_popularity.getD mid 0 ∧
      (update_stream_features s e).movie_recent_views.getD mid 0 =
        s.movie_recent_views.getD mid 0 := by
  unfold update_stream_features
  rcases hg : e.genres with _ | g
  all_goals by_cases hvc : e.event_type = "view" ∨ e.event_type = "click"
  all_goals simp [hvc, CounterMap.getD_bump_other _ _ _ (Ne.symm hu),
    CounterMap.getD_bump_other _ _ _ (Ne.symm hm),
    lookupGenre_setKey_other _ _ _ _ (Ne.symm hu)]

theorem fold_preserves_untouched_ids (events : List Event) (s : StreamFeatures)
    (uid mid : Nat)
    (hu : ∀ e ∈ events, e.user_idx ≠ uid) (hm : ∀ e ∈ events, e.movie_idx ≠ mid) :
    (events.foldl update_stream_features s).user_recent_activity.getD uid 0 =
        s.user_recent_activity.getD uid 0 ∧
      lookupGenre (events.foldl update_stream_features s).user_last_genre uid =
        lookupGenre s.user_last_genre uid ∧
      (events.foldl update_stream_features s).movie_popularity.getD mid 0 =
        s.movie_popularity.getD mid 0 ∧
      (events.foldl update_stream_features s).movie_recent_views.getD mid 0 =
        s.movie_recent_views.getD mid 0 := by
  induction events generalizing s with
  | nil => exact ⟨rfl, rfl, rfl, rfl⟩
  | cons e rest ih =>
      have he_u : e.user_idx ≠ uid := hu e (List.mem_cons_self e rest)
      have he_m : e.movie_idx ≠ mid := hm e (List.mem_cons_self e rest)
      have hstep := update_preserves_other_ids s e uid mid he_u he_m
      have htail := ih (update_stream_features s e)
        (fun x hx => hu x (List.mem_cons_of_mem e hx))
        (fun x hx => hm x (List.mem_cons_of_mem e hx))
      simp only [List.foldl_cons] at *
      exact ⟨htail.1.trans hstep.1, htail.2.1.trans hstep.2.1,
        htail.2.2.1.trans hstep.2.2.1, htail.2.2.2.trans hstep.2.2.2⟩

/-- C7: `update_stream_features` increments the activity counter of
`event.user_idx` by exactly 1 unconditionally; it increments both attention
counters of `event.movie_idx` (`movie_popularity` and `movie_recent_views`)
by exactly 1 when the event type is `view` or `click` and leaves them
untouched otherwise; it overwrites the user's last-seen genre exactly when
the event carries a `genres` tag; and applying `{user=1, type=view, item=7}`
three times from the initial state yields activity counter 3 for user 1 and
attention counter 3 for movie 7. -/
theorem update_stream_features_effects (s : StreamFeatures) (e : Event) :
    ((update_stream_features s e).user_recent_activity.getD e.user_idx 0 =
        s.user_recent_activity.getD e.user_idx 0 + 1) ∧
      ((e.event_type = "view" ∨ e.event_type = "click") →
        (update_stream_features s e).movie_popularity.getD e.movie_idx 0 =
            s.movie_popularity.getD e.movie_idx 0 + 1 ∧
          (update_stream_features s e).movie_recent_views.getD e.movie_idx 0 =
            s.movie_recent_views.getD e.movie_idx 0 + 1) ∧
      (¬(e.event_type = "view" ∨ e.event_type = "click") →
        (update_stream_features s e).movie_popularity = s.movie_popularity ∧
          (update_stream_features s e).movie_recent_views = s.movie_recent_views) ∧
      (∀ g, e.genres = some g →
        lookupGenre (update_stream_features s e).user_last_genre e.user_idx = some g) ∧
      (e.genres = none →
        (update_stream_features s e).user_last_genre = s.user_last_genre) ∧
      ((get_user_stream_features
          (update_stream_features (update_stream_features
            (update_stream_features initStreamFeatures viewEvent) viewEvent) viewEvent)
          1).1 = 3 ∧
        (get_movie_stream_features
          (update_stream_features (update_stream_features
            (update_stream_features initStreamFeatures viewEvent) viewEvent) viewEvent)
          7).1 = 3) := by
  refine ⟨?_, ?_, ?_, ?_, ?_, by decide⟩
  · unfold update_stream_features
    rcases e.genres with _ | g
    all_goals by_cases hvc : e.event_type = "view" ∨ e.event_type = "click"
    all_goals simp [hvc, CounterMap.getD_bump_self]
  · intro hvc
    unfold update_stream_features
    rcases e.genres with _ | g
    all_goals simp [hvc, CounterMap.getD_bump_self]
  · intro hvc
    unfold update_stream_features
    rcases e.genres with _ | g
    all_goals simp [hvc]
  · intro g hg
    unfold update_stream_features
    rw [hg]
    by_cases hvc : e.event_type = "view" ∨ e.event_type = "click"
    all_goals simp [hvc, lookupGenre_setKey_self]
  · intro hg
    unfold update_stream_features
    rw [hg]
    by_cases hvc : e.event_type = "view" ∨ e.event_type = "click"
    all_goals simp [hvc]

/-- Witness for `update_stream_features_effects` at the initial state and the
scenario event. -/
theorem update_stream_features_effects_witness :
    ((update_stream_features initStreamFeatures viewEvent).user_recent_activity.getD
        viewEvent.user_idx 0 =
      initStreamFeatures.user_recent_activity.getD viewEvent.user_idx 0 + 1) ∧
      ((viewEvent.event_type = "view" ∨ viewEvent.event_type = "click") →
        (update_stream_features initStreamFeatures viewEvent).movie_popularity.getD
            viewEvent.movie_idx 0 =
          initStreamFeatures.movie_popularity.getD viewEvent.movie_idx 0 + 1 ∧
          (update_stream_features initStreamFeatures viewEvent).movie_recent_views.getD
            viewEvent.movie_idx 0 =
          initStreamFeatures.movie_recent_views.getD viewEvent.movie_idx 0 + 1) ∧
      (¬(viewEvent.event_type = "view" ∨ viewEvent.event_type = "click") →
        (update_stream_features initStreamFeatures viewEvent).movie_popularity =
            initStreamFeatures.movie_popularity ∧
          (update_stream_features initStreamFeatures viewEvent).movie_recent_views =
            initStreamFeatures.movie_recent_views) ∧
      (∀ g, viewEvent.genres = some g →
        lookupGenre (update_stream_features initStreamFeatures viewEvent).user_last_genre
          viewEvent.user_idx = some g) ∧
      (viewEvent.genres = none →
        (update_stream_features initStreamFeatures viewEvent).user_last_genre =
          initStreamFeatures.user_last_genre) ∧
      ((get_user_stream_features
          (update_stream_features (update_stream_features
            (update_stream_features initStreamFeatures viewEvent) viewEvent) viewEvent)
          1).1 = 3 ∧
        (get_movie_stream_features
          (update_stream_features (update_stream_features
            (update_stream_features initStreamFeatures viewEvent) viewEvent) viewEvent)
          7).1 = 3) :=
  update_stream_features_effects initStreamFeatures viewEvent

/-- C8: for an id no applied event has touched, the streaming snapshot reads
return the default state — activity 0 and genre "Unknown" for users, both
attention counters 0 for movies — rather than signaling absence; the reads
are pure functions of the state. -/
theorem snapshot_default_for_untouched (events : List Event) (uid mid : Nat)
    (hu : ∀ e ∈ events, e.user_idx ≠ uid) (hm : ∀ e ∈ events, e.movie_idx ≠ mid) :
    get_user_stream_features (events.foldl update_stream_features initStreamFeatures)
        uid = (0, "Unknown") ∧
      get_movie_stream_features (events.foldl update_stream_features initStreamFeatures)
        mid = (0, 0) := by
  have h := fold_preserves_untouched_ids events initStreamFeatures uid mid hu hm
  unfold get_user_stream_features get_movie_stream_features
  rw [h.1, h.2.1, h.2.2.1, h.2.2.2]
  exact ⟨rfl, rfl⟩

/-- Witness for `snapshot_default_for_untouched`: one applied view event for
user 1 / movie 7 leaves user 2 and movie 3 at the default state. -/
theorem snapshot_default_for_untouched_witness :
    get_user_stream_features ([viewEvent].foldl update_stream_features initStreamFeatures)
        2 = (0, "Unknown") ∧
      get_movie_stream_features ([viewEvent].foldl update_stream_features initStreamFeatures)
        3 = (0, 0) :=
  snapshot_default_for_untouched [viewEvent] 2 3 (by decide) (by decide)

end FeatureEngineering

namespace Serving

theorem boost_factor_eq (fs : FeatureDict) (a : Int)
    (ha : fs.getD "user_recent_activity" 0 = a) (h0 : 0 ≤ a) :
    boost_factor fs = 1 + ((min a 20 : Int) : ℚ) / 100 := by
  unfold boost_factor
  by_cases hfs : fs = []
  · subst hfs
    simp only [FeatureDict.getD] at ha
    subst ha
    norm_num
  · simp only [hfs, if_false, ha]
    by_cases hpos : a > 0
    · simp [hpos]
    · have haz : a = 0 := le_antisymm (not_lt.mp hpos) h0
      subst haz
      norm_num

/-- C2 (amended): for a feature record whose activity counter is a ≥ 0, the
boosted scores equal the base scores multiplied by
factor = 1 + min(a, 20) * 0.01; for fixed NONNEGATIVE base scores the boosted
output is pointwise non-decreasing in the activity counter, and it is
identical for every pair of counters ≥ 20 (activity 20 and 50 agree).  The
claim's unrestricted monotonicity fails for negative base scores, as the
counterexample shows. -/
theorem apply_boost_monotone (fs1 fs2 : FeatureDict) (scores : List ℚ) (a b : Int)
    (ha : fs1.getD "user_recent_activity" 0 = a)
    (hb : fs2.getD "user_recent_activity" 0 = b)
    (h0 : 0 ≤ a) (hab : a ≤ b) :
    apply_boost fs1 scores =
        scores.map (fun s => s * (1 + ((min a 20 : Int) : ℚ) / 100)) ∧
      ((∀ s ∈ scores, 0 ≤ s) →
        List.Forall₂ (· ≤ ·) (apply_boost fs1 scores) (apply_boost fs2 scores)) ∧
      (20 ≤ a → apply_boost fs1 scores = apply_boost fs2 scores) := by
  have hf1 : boost_factor fs1 = 1 + ((min a 20 : Int) : ℚ) / 100 :=
    boost_factor_eq fs1 a ha h0
  have hf2 : boost_factor fs2 = 1 + ((min b 20 : Int) : ℚ) / 100 :=
    boost_factor_eq fs2 b hb (le_trans h0 hab)
  have hfle : boost_factor fs1 ≤ boost_factor fs2 := by
    rw [hf1, hf2]
    have hmin : min a 20 ≤ min b 20 := min_le_min hab le_rfl
    have : ((min a 20 : Int) : ℚ) ≤ ((min b 20 : Int) : ℚ) := Int.cast_le.mpr hmin
    linarith
  refine ⟨?_, ?_, ?_⟩
  · unfold apply_boost
    rw [hf1]
  · intro hs
    unfold apply_boost
    induction scores with
    | nil => exact List.Forall₂.nil
    | cons x xs ih =>
        refine List.Forall₂.cons ?_ (ih ?_)
        · exact mul_le_mul_of_nonneg_left hfle (hs x (List.mem_cons_self x xs))
        · exact fun s hsx => hs s (List.mem_cons_of_mem x hsx)
  · intro h20
    unfold apply_boost
    rw [hf1, hf2, min_eq_right h20, min_eq_right (le_trans h20 hab)]

/-- Witness for `apply_boost_monotone`: records with activity 20 and 50,
base scores `[1, 2]`. -/
theorem apply_boost_monotone_witness :
    apply_boost [("user_recent_activity", 20)] [1, 2] =
        [1, 2].map (fun s => s * (1 + ((min (20 : Int) 20 : Int) : ℚ) / 100)) ∧
      ((∀ s ∈ ([1, 2] : List ℚ), 0 ≤ s) →
        List.Forall₂ (· ≤ ·) (apply_boost [("user_recent_activity", 20)] [1, 2])
          (apply_boost [("user_recent_activity", 50)] [1, 2])) ∧
      ((20 : Int) ≤ 20 → apply_boost [("user_recent_activity", 20)] [1, 2] =
        apply_boost [("user_recent_activity", 50)] [1, 2]) :=
  apply_boost_monotone [("user_recent_activity", 20)] [("user_recent_activity", 50)]
    [1, 2] 20 50 (by decide) (by decide) (by decide) (by decide)

/-- C2 counterexample: with base score -1, raising the activity counter from
0 to 1 strictly lowers the boosted score (-101/100 < -1), so for fixed base
scores that may be negative the boosted output is not non-decreasing in the
activity counter. -/
theorem apply_boost_not_monotone_negative_score :
    apply_boost [("user_recent_activity", 0)] [-1] = [-1] ∧
      apply_boost [("user_recent_activity", 1)] [-1] = [-(101 / 100)] ∧
      ¬ ((-1 : ℚ) ≤ -(101 / 100)) := by
  refine ⟨?_, ?_, by norm_num⟩
  · simp [apply_boost, boost_factor, FeatureDict.getD]
  · simp only [apply_boost, boost_factor, FeatureDict.getD, List.map]
    norm_num

/-- C9: when the feature record on the recommend path is absent (Feast turned
off for the request) or empty, the boost is a no-op: the scores used for
ranking are exactly the raw model scores, hence the returned ranking is
identical to the no-features run. -/
theorem no_features_identity_ranking (use_feast : Bool) (fetched : FeatureDict)
    (raw_scores : List ℚ) (user_movies : List Nat) (n : Nat)
    (h : use_feast = false ∨ fetched = []) :
    apply_boost (if use_feast then fetched else []) raw_scores = raw_scores ∧
      recommend_ranking use_feast fetched raw_scores user_movies n =
        build_recommendations raw_scores user_movies n := by
  have hempty : (if use_feast then fetched else []) = ([] : FeatureDict) := by
    rcases h with h | h
    · simp [h]
    · simp [h]
  have hboost : apply_boost (if use_feast then fetched else []) raw_scores = raw_scores := by
    rw [hempty]
    have h1 : boost_factor [] = 1 := rfl
    unfold apply_boost
    rw [h1]
    simp
  refine ⟨hboost, ?_⟩
  show build_recommendations
      (apply_boost (if use_feast then fetched else []) raw_scores) user_movies n =
    build_recommendations raw_scores user_movies n
  rw [hboost]

/-- Witness for `no_features_identity_ranking`: Feast disabled for the
request, a nonempty fetched record, two candidate scores. -/
theorem no_features_identity_ranking_witness :
    apply_boost (if false then [("user_recent_activity", 5)] else []) [2, 1] = [2, 1] ∧
      recommend_ranking false [("user_recent_activity", 5)] [2, 1] [] 2 =
        build_recommendations [2, 1] [] 2 :=
  no_features_identity_ranking false [("user_recent_activity", 5)] [2, 1] [] 2
    (Or.inl rfl)

end Serving

namespace FeatureEngineering

/-- A row of the ratings DataFrame `[user_idx, movie_idx, rating, timestamp]`. -/
structure Interaction where
  user_idx : Nat
  movie_idx : Nat
  rating : ℚ
  timestamp : Int
deriving DecidableEq

/-- Mean of a rational list (`np.mean` / the pandas `mean` aggregation;
groupby groups are always nonempty). -/
def listMean (xs : List ℚ) : ℚ := xs.sum / xs.length

/-- The ratings of one group of `ratings_df.groupby('user_idx')`. -/
def userRatings (ratings : List Interaction) (uid : Nat) : List ℚ :=
  (ratings.filter (fun r => r.user_idx == uid)).map Interaction.rating

/-- The ratings of one group of `ratings_df.groupby('movie_idx')`. -/
def movieRatings (ratings : List Interaction) (mid : Nat) : List ℚ :=
  (ratings.filter (fun r => r.movie_idx == mid)).map Interaction.rating

/-- The pandas `std` aggregation (sample standard deviation, `ddof = 1`),
modelled by its square so that the value stays rational; the NaN a singleton
group produces is `none`. -/
def sampleVarOpt (xs : List ℚ) : Option ℚ :=
  if 2 ≤ xs.length then
    some ((xs.map (fun x => (x - listMean xs) ^ 2)).sum / ((xs.length : ℚ) - 1))
  else none

/-- The squared `user_rating_std` / `movie_rating_std` field after
`.fillna(0)` (`feature_engineer.py` lines 86–87 and 128–129). -/
def ratingStdSq (xs : List ℚ) : ℚ := (sampleVarOpt xs).getD 0

/-- Modelled from the spec: the spec prescribes the POPULATION standard
deviation (divisor n) for the std field; this is its square, for comparison
with the code's sample-based `ratingStdSq`. -/
def popVarSpec (xs : List ℚ) : ℚ :=
  if xs.length = 0 then 0
  else (xs.map (fun x => (x - listMean xs) ^ 2)).sum / (xs.length : ℚ)

/-- The `movie_rating_count` column entry, as a rational (pandas promotes it when averaging). -/
def movie_rating_count (ratings : List Interaction) (mid : Nat) : ℚ :=
  ((movieRatings ratings mid).length : ℚ)

/-- The `movie_avg_rating` column entry. -/
def movie_avg_rating (ratings : List Interaction) (mid : Nat) : ℚ :=
  listMean (movieRatings ratings mid)

/-- The groupby keys: distinct movie indices of the ratings frame. -/
def movieKeys (ratings : List Interaction) : List Nat :=
  (ratings.map Interaction.movie_idx).dedup

/-- Mirrors `C = movie_features['movie_rating_count'].mean()`
(`feature_engineer.py` line 120). -/
def mean_movie_count (ratings : List Interaction) : ℚ :=
  listMean ((movieKeys ratings).map (fun mid => movie_rating_count ratings mid))

/-- Mirrors `m = ratings_df['rating'].mean()` (`feature_engineer.py` line 121). -/
def global_mean_rating (ratings : List Interaction) : ℚ :=
  listMean (ratings.map Interaction.rating)

/-- Embeds `movie_quality_score` (`feature_engineer.py` lines 123–126):
`(C*m + avg*count) / (C + count)`. -/
def movie_quality_score (ratings : List Interaction) (mid : Nat) : ℚ :=
  (mean_movie_count ratings * global_mean_rating ratings +
    movie_avg_rating ratings mid * movie_rating_count ratings mid) /
    (mean_movie_count ratings + movie_rating_count ratings mid)

/-- C4: for an entity (user or movie) with exactly one interaction, the std
field of the compiled batch record is the number 0: pandas produces NaN
(`none`) for the singleton group and `.fillna(0)` resolves it, so no NaN
reaches the output. -/
theorem std_field_zero_count_one (ratings : List Interaction) (uid mid : Nat)
    (hu : (userRatings ratings uid).length = 1)
    (hm : (movieRatings ratings mid).length = 1) :
    sampleVarOpt (userRatings ratings uid) = none ∧
      ratingStdSq (userRatings ratings uid) = 0 ∧
      sampleVarOpt (movieRatings ratings mid) = none ∧
      ratingStdSq (movieRatings ratings mid) = 0 := by
  unfold ratingStdSq sampleVarOpt
  rw [hu, hm]
  norm_num

/-- Witness for `std_field_zero_count_one`: one rating by user 1 of movie 5. -/
theorem std_field_zero_count_one_witness :
    sampleVarOpt (userRatings [⟨1, 5, 4, 100⟩] 1) = none ∧
      ratingStdSq (userRatings [⟨1, 5, 4, 100⟩] 1) = 0 ∧
      sampleVarOpt (movieRatings [⟨1, 5, 4, 100⟩] 5) = none ∧
      ratingStdSq (movieRatings [⟨1, 5, 4, 100⟩] 5) = 0 :=
  std_field_zero_count_one [⟨1, 5, 4, 100⟩] 1 5 (by decide) (by decide)

/-- C5 counterexample: for an entity with the two ratings 4 and 5 the code's
std field squares to 1/2 (sample variance, divisor n−1) while the population
variance is 1/4; the squares of the two nonnegative values differ, hence the
std field is not the population standard deviation. -/
theorem std_field_not_population :
    ratingStdSq (movieRatings [⟨1, 5, 4, 100⟩, ⟨2, 5, 5, 200⟩] 5) = 1 / 2 ∧
      popVarSpec (movieRatings [⟨1, 5, 4, 100⟩, ⟨2, 5, 5, 200⟩] 5) = 1 / 4 ∧
      (1 / 2 : ℚ) ≠ 1 / 4 := by
  refine ⟨?_, ?_, by norm_num⟩
  · norm_num [ratingStdSq, sampleVarOpt, movieRatings, listMean]
  · norm_num [popVarSpec, movieRatings, listMean]

theorem ratingStdSq_eq_scaled_popVar (xs : List ℚ) (h : 2 ≤ xs.length) :
    ratingStdSq xs = (xs.length : ℚ) / ((xs.length : ℚ) - 1) * popVarSpec xs := by
  have hn : (2 : ℚ) ≤ (xs.length : ℚ) := by exact_mod_cast h
  have h0 : (xs.length : ℚ) ≠ 0 := by linarith
  have h1 : (xs.length : ℚ) - 1 ≠ 0 := by
    intro hx
    have : (xs.length : ℚ) = 1 := by linarith
    linarith
  unfold ratingStdSq sampleVarOpt popVarSpec
  rw [if_pos h, if_neg (by omega : ¬ xs.length = 0)]
  simp only [Option.getD_some]
  field_simp
  ring

/-- C5 (amended): for every entity with two or more interactions the std
field of the compiled batch record is the SAMPLE standard deviation (divisor
n−1), not the population one: its square is n/(n−1) times the population
variance. -/
theorem std_field_sample_variance (ratings : List Interaction) (uid mid : Nat)
    (hu : 2 ≤ (userRatings ratings uid).length)
    (hm : 2 ≤ (movieRatings ratings mid).length) :
    ratingStdSq (userRatings ratings uid) =
        ((userRatings ratings uid).length : ℚ) /
          (((userRatings ratings uid).length : ℚ) - 1) *
          popVarSpec (userRatings ratings uid) ∧
      ratingStdSq (movieRatings ratings mid) =
        ((movieRatings ratings mid).length : ℚ) /
          (((movieRatings ratings mid).length : ℚ) - 1) *
          popVarSpec (movieRatings ratings mid) :=
  ⟨ratingStdSq_eq_scaled_popVar _ hu, ratingStdSq_eq_scaled_popVar _ hm⟩

/-- Witness for `std_field_sample_variance`: two ratings by user 1 of
movie 5. -/
theorem std_field_sample_variance_witness :
    ratingStdSq (userRatings [⟨1, 5, 4, 100⟩, ⟨1, 5, 5, 200⟩] 1) =
        ((userRatings [⟨1, 5, 4, 100⟩, ⟨1, 5, 5, 200⟩] 1).length : ℚ) /
          (((userRatings [⟨1, 5, 4, 100⟩, ⟨1, 5, 5, 200⟩] 1).length : ℚ) - 1) *
          popVarSpec (userRatings [⟨1, 5, 4, 100⟩, ⟨1, 5, 5, 200⟩] 1) ∧
      ratingStdSq (movieRatings [⟨1, 5, 4, 100⟩, ⟨1, 5, 5, 200⟩] 5) =
        ((movieRatings [⟨1, 5, 4, 100⟩, ⟨1, 5, 5, 200⟩] 5).length : ℚ) /
          (((movieRatings [⟨1, 5, 4, 100⟩, ⟨1, 5, 5, 200⟩] 5).length : ℚ) - 1) *
          popVarSpec (movieRatings [⟨1, 5, 4, 100⟩, ⟨1, 5, 5, 200⟩] 5) :=
  std_field_sample_variance [⟨1, 5, 4, 100⟩, ⟨1, 5, 5, 200⟩] 1 5 (by decide) (by decide)

end FeatureEngineering

namespace FeatureEngineering

theorem convex_div_bounds (w1 w2 r m : ℚ) (hw1 : 0 ≤ w1) (hw2 : 0 < w2) :
    min r m ≤ (w1 * m + r * w2) / (w1 + w2) ∧
      (w1 * m + r * w2) / (w1 + w2) ≤ max r m := by
  have hsum : 0 < w1 + w2 := by linarith
  rcases le_total r m with hrm | hrm
  · rw [min_eq_left hrm, max_eq_right hrm]
    constructor
    · rw [le_div_iff₀ hsum]
      nlinarith
    · rw [div_le_iff₀ hsum]
      nlinarith
  · rw [min_eq_right hrm, max_eq_left hrm]
    constructor
    · rw [le_div_iff₀ hsum]
      nlinarith
    · rw [div_le_iff₀ hsum]
      nlinarith

theorem mean_movie_count_nonneg (ratings : List Interaction) :
    0 ≤ mean_movie_count ratings := by
  unfold mean_movie_count listMean
  apply div_nonneg
  · apply List.sum_nonneg
    intro x hx
    rcases List.mem_map.mp hx with ⟨mid, _, rfl⟩
    unfold movie_rating_count
    positivity
  · positivity

/-- C3: for every movie with at least one rating, the compiled quality score
equals the shrinkage estimator `(C·m + r̄·n) / (C + n)` with `C` the mean
rating count over all movies and `m` the global mean rating, and it lies
between `min(r̄, m)` and `max(r̄, m)`. -/
theorem movie_quality_score_convex (ratings : List Interaction) (mid : Nat)
    (h : 1 ≤ (movieRatings ratings mid).length) :
    movie_quality_score ratings mid =
        (mean_movie_count ratings * global_mean_rating ratings +
          movie_avg_rating ratings mid * movie_rating_count ratings mid) /
          (mean_movie_count ratings + movie_rating_count ratings mid) ∧
      min (movie_avg_rating ratings mid) (global_mean_rating ratings) ≤
        movie_quality_score ratings mid ∧
      movie_quality_score ratings mid ≤
        max (movie_avg_rating ratings mid) (global_mean_rating ratings) := by
  have hcnt : 0 < movie_rating_count ratings mid := by
    unfold movie_rating_count
    exact_mod_cast Nat.lt_of_lt_of_le Nat.zero_lt_one h
  have hbounds := convex_div_bounds (mean_movie_count ratings)
    (movie_rating_count ratings mid) (movie_avg_rating ratings mid)
    (global_mean_rating ratings) (mean_movie_count_nonneg ratings) hcnt
  exact ⟨rfl, hbounds.1, hbounds.2⟩

/-- Witness for `movie_quality_score_convex`: movie 5 with two ratings among
three total interactions. -/
theorem movie_quality_score_convex_witness :
    movie_quality_score [⟨1, 5, 4, 100⟩, ⟨2, 5, 5, 200⟩, ⟨1, 6, 3, 300⟩] 5 =
        (mean_movie_count [⟨1, 5, 4, 100⟩, ⟨2, 5, 5, 200⟩, ⟨1, 6, 3, 300⟩] *
          global_mean_rating [⟨1, 5, 4, 100⟩, ⟨2, 5, 5, 200⟩, ⟨1, 6, 3, 300⟩] +
          movie_avg_rating [⟨1, 5, 4, 100⟩, ⟨2, 5, 5, 200⟩, ⟨1, 6, 3, 300⟩] 5 *
          movie_rating_count [⟨1, 5, 4, 100⟩, ⟨2, 5, 5, 200⟩, ⟨1, 6, 3, 300⟩] 5) /
          (mean_movie_count [⟨1, 5, 4, 100⟩, ⟨2, 5, 5, 200⟩, ⟨1, 6, 3, 300⟩] +
          movie_rating_count [⟨1, 5, 4, 100⟩, ⟨2, 5, 5, 200⟩, ⟨1, 6, 3, 300⟩] 5) ∧
      min (movie_avg_rating [⟨1, 5, 4, 100⟩, ⟨2, 5, 5, 200⟩, ⟨1, 6, 3, 300⟩] 5)
          (global_mean_rating [⟨1, 5, 4, 100⟩, ⟨2, 5, 5, 200⟩, ⟨1, 6, 3, 300⟩]) ≤
        movie_quality_score [⟨1, 5, 4, 100⟩, ⟨2, 5, 5, 200⟩, ⟨1, 6, 3, 300⟩] 5 ∧
      movie_quality_score [⟨1, 5, 4, 100⟩, ⟨2, 5, 5, 200⟩, ⟨1, 6, 3, 300⟩] 5 ≤
        max (movie_avg_rating [⟨1, 5, 4, 100⟩, ⟨2, 5, 5, 200⟩, ⟨1, 6, 3, 300⟩] 5)
          (global_mean_rating [⟨1, 5, 4, 100⟩, ⟨2, 5, 5, 200⟩, ⟨1, 6, 3, 300⟩]) :=
  movie_quality_score_convex [⟨1, 5, 4, 100⟩, ⟨2, 5, 5, 200⟩, ⟨1, 6, 3, 300⟩] 5
    (by decide)

end FeatureEngineering

namespace FeatureEngineering

/-- A row of one user's group of the ratings frame merged with movie genres
(`feature_engineer.py` lines 148–152): the rating together with the movie's
genre string (`none` models the pandas NaN a left merge can produce). -/
structure RatedMovie where
  rating : ℚ
  genres : Option String
deriving DecidableEq

/-- Python `str.split('|')`, structurally recursive over the character list
(the library's `String.splitOn` hides well-founded recursion, which concrete
instances cannot reduce through). -/
def splitPipe (cs : List Char) : List (List Char) :=
  match cs with
  | [] => [[]]
  | c :: rest =>
      match splitPipe rest with
      | [] => [[]]
      | r :: rs => if c = '|' then [] :: r :: rs else (c :: r) :: rs

/-- The genre tokens one row contributes: `row['genres'].split('|')` guarded
by `pd.notna` and the `'(no genres listed)'` sentinel
(`feature_engineer.py` lines 162–163). -/
def genreTokens (g : Option String) : List String :=
  match g with
  | none => []
  | some s =>
      if s = "(no genres listed)" then []
      else (splitPipe s.data).map (fun cs => String.mk cs)

/-- All genre tokens of a user's rows, in row order — the order in which the
Python loop feeds the `genre_counts` defaultdict. -/
def userTokens (rows : List RatedMovie) : List String :=
  rows.flatMap (fun r => genreTokens r.genres)

/-- The keys of the `genre_counts` defaultdict in insertion order: first
occurrence order of the user's genre tokens. -/
def insertionKeys (tokens : List String) : List String :=
  tokens.foldl (fun acc g => if g ∈ acc then acc else acc ++ [g]) []

/-- Python `max(genre_counts, key=genre_counts.get)` scans the keys left to
right keeping the current best and replacing it only on a strictly greater
count, so a tie keeps the earlier key. -/
def pickMax (cnt : String → Nat) (b : String) (keys : List String) : String :=
  match keys with
  | [] => b
  | k :: ks => if cnt b < cnt k then pickMax cnt k ks else pickMax cnt b ks

/-- Python `max` over the keys of a possibly-empty dictionary. -/
def maxKey (cnt : String → Nat) (keys : List String) : Option String :=
  match keys with
  | [] => none
  | k :: ks => some (pickMax cnt k ks)

/-- Mirrors `genre_ratings[g]`: one credit of the row's rating for each occurrence of
`g` among the row's tokens (`feature_engineer.py` line 166). -/
def genreRatingCredits (rows : List RatedMovie) (g : String) : List ℚ :=
  rows.flatMap (fun r =>
    ((genreTokens r.genres).filter (fun t => t == g)).map (fun _ => r.rating))

/-- Embeds `_compute_user_movie_features` restricted to one user's group
(`feature_engineer.py` lines 155–184): the favorite genre, its tally, and the
mean of the ratings credited to it; the sentinel row when the user has no
genre data. -/
def userFavoriteGenreFeatures (rows : List RatedMovie) : String × Nat × ℚ :=
  match maxKey (fun g => (userTokens rows).count g)
      (insertionKeys (userTokens rows)) with
  | some g => (g, (userTokens rows).count g, listMean (genreRatingCredits rows g))
  | none => ("Unknown", 0, 0)

theorem le_cnt_pickMax (cnt : String → Nat) :
    ∀ (keys : List String) (b : String), cnt b ≤ cnt (pickMax cnt b keys) := by
  intro keys
  induction keys with
  | nil => intro b; exact le_rfl
  | cons k ks ih =>
      intro b
      by_cases h : cnt b < cnt k
      · simpa [pickMax, h] using le_trans (le_of_lt h) (ih k)
      · simpa [pickMax, h] using ih b

theorem pickMax_first_max (cnt : String → Nat) :
    ∀ (keys : List String) (b : String),
      ∃ l1 l2, b :: keys = l1 ++ pickMax cnt b keys :: l2 ∧
        (∀ k ∈ l1, cnt k < cnt (pickMax cnt b keys)) ∧
        (∀ k ∈ l2, cnt k ≤ cnt (pickMax cnt b keys)) := by
  intro keys
  induction keys with
  | nil =>
      intro b
      exact ⟨[], [], rfl, by simp, by simp⟩
  | cons k ks ih =>
      intro b
      by_cases h : cnt b < cnt k
      · have hpick : pickMax cnt b (k :: ks) = pickMax cnt k ks := by
          simp [pickMax, h]
        obtain ⟨l1, l2, heq, hlt, hle⟩ := ih k
        rw [hpick]
        refine ⟨b :: l1, l2, ?_, ?_, hle⟩
        · rw [List.cons_append, ← heq]
        · intro x hx
          rcases List.mem_cons.mp hx with rfl | hx
          · exact lt_of_lt_of_le h (le_cnt_pickMax cnt ks k)
          · exact hlt x hx
      · have hpick : pickMax cnt b (k :: ks) = pickMax cnt b ks := by
          simp [pickMax, h]
        obtain ⟨l1, l2, heq, hlt, hle⟩ := ih b
        rw [hpick]
        cases l1 with
        | nil =>
            simp only [List.nil_append] at heq
            obtain ⟨hb, hks⟩ := List.cons.inj heq
            refine ⟨[], k :: ks, ?_, by simp, ?_⟩
            · simp [← hb]
            · intro x hx
              rcases List.mem_cons.mp hx with rfl | hx
              · rw [← hb]; exact not_lt.mp h
              · exact hle x (hks ▸ hx)
        | cons a t =>
            simp only [List.cons_append] at heq
            obtain ⟨hb, hks⟩ := List.cons.inj heq
            refine ⟨b :: k :: t, l2, ?_, ?_, hle⟩
            · rw [List.cons_append, List.cons_append, ← hks]
            · intro x hx
              have hblt : cnt b < cnt (pickMax cnt b ks) := by
                have := hlt a (List.mem_cons_self a t)
                rwa [← hb] at this
              rcases List.mem_cons.mp hx with rfl | hx
              · exact hblt
              · rcases List.mem_cons.mp hx with rfl | hx
                · exact lt_of_le_of_lt (not_lt.mp h) hblt
                · exact hlt x (List.mem_cons_of_mem a hx)

theorem foldl_insert_ne_nil (tokens : List String) (acc : List String)
    (h : acc ≠ []) :
    tokens.foldl (fun acc g => if g ∈ acc then acc else acc ++ [g]) acc ≠ [] := by
  induction tokens generalizing acc with
  | nil => exact h
  | cons t ts ih =>
      simp only [List.foldl_cons]
      apply ih
      by_cases ht : t ∈ acc
      · simpa [ht] using h
      · simp [ht]

theorem insertionKeys_ne_nil (tokens : List String) (h : tokens ≠ []) :
    insertionKeys tokens ≠ [] := by
  cases tokens with
  | nil => exact absurd rfl h
  | cons t ts =>
      unfold insertionKeys
      simp only [List.foldl_cons]
      apply foldl_insert_ne_nil
      simp

/-- C6 counterexample: a user whose interactions carry the genres "Drama"
then "Comedy", one occurrence each — the tally is tied, natural sort order
would pick "Comedy", but the code's `max` over the defaultdict keeps the
first-inserted key and returns "Drama". -/
theorem favorite_genre_tiebreak_not_sorted :
    (userFavoriteGenreFeatures [⟨5, some "Drama"⟩, ⟨3, some "Comedy"⟩]).1 =
        "Drama" ∧
      (userTokens [⟨5, some "Drama"⟩, ⟨3, some "Comedy"⟩]).count "Comedy" =
        (userTokens [⟨5, some "Drama"⟩, ⟨3, some "Comedy"⟩]).count "Drama" ∧
      "Comedy" < "Drama" := by
  refine ⟨by decide, by decide, ?_⟩
  rw [String.lt_iff_toList_lt]
  decide

/-- C6 (amended): for a user with at least one genre-carrying interaction,
the compiled favorite genre is a tally-maximum genre with ties broken by
FIRST OCCURRENCE among the user's pipe-split genre tokens (the defaultdict's
insertion order), not by natural sort order: every key first seen earlier has
a strictly smaller tally and every key first seen later has a tally at most
that of the favorite; the recorded count is the favorite's tally and the
recorded rating is the mean of the ratings credited to the favorite.  A user
with no genre data gets the sentinel ("Unknown", 0, 0). -/
theorem userFavoriteGenre_spec (rows : List RatedMovie) :
    (userTokens rows = [] →
      userFavoriteGenreFeatures rows = ("Unknown", 0, 0)) ∧
      (userTokens rows ≠ [] →
        ∃ g l1 l2,
          userFavoriteGenreFeatures rows =
            (g, (userTokens rows).count g, listMean (genreRatingCredits rows g)) ∧
          insertionKeys (userTokens rows) = l1 ++ g :: l2 ∧
          (∀ k ∈ l1, (userTokens rows).count k < (userTokens rows).count g) ∧
          (∀ k ∈ l2, (userTokens rows).count k ≤ (userTokens rows).count g)) := by
  constructor
  · intro h
    unfold userFavoriteGenreFeatures
    rw [h]
    rfl
  · intro h
    have hkeys : insertionKeys (userTokens rows) ≠ [] :=
      insertionKeys_ne_nil (userTokens rows) h
    rcases hk : insertionKeys (userTokens rows) with _ | ⟨k, ks⟩
    · exact absurd hk hkeys
    · obtain ⟨l1, l2, heq, hlt, hle⟩ :=
        pickMax_first_max (fun g => (userTokens rows).count g) ks k
      refine ⟨pickMax (fun g => (userTokens rows).count g) k ks, l1, l2, ?_, ?_,
        hlt, hle⟩
      · unfold userFavoriteGenreFeatures
        rw [hk]
        rfl
      · exact heq

/-- Witness for `userFavoriteGenre_spec` at the counterexample's rows. -/
theorem userFavoriteGenre_spec_witness :
    (userTokens [⟨5, some "Drama"⟩, ⟨3, some "Comedy"⟩] = [] →
      userFavoriteGenreFeatures [⟨5, some "Drama"⟩, ⟨3, some "Comedy"⟩] =
        ("Unknown", 0, 0)) ∧
      (userTokens [⟨5, some "Drama"⟩, ⟨3, some "Comedy"⟩] ≠ [] →
        ∃ g l1 l2,
          userFavoriteGenreFeatures [⟨5, some "Drama"⟩, ⟨3, some "Comedy"⟩] =
            (g, (userTokens [⟨5, some "Drama"⟩, ⟨3, some "Comedy"⟩]).count g,
              listMean (genreRatingCredits [⟨5, some "Drama"⟩, ⟨3, some "Comedy"⟩] g)) ∧
          insertionKeys (userTokens [⟨5, some "Drama"⟩, ⟨3, some "Comedy"⟩]) =
            l1 ++ g :: l2 ∧
          (∀ k ∈ l1, (userTokens [⟨5, some "Drama"⟩, ⟨3, some "Comedy"⟩]).count k <
            (userTokens [⟨5, some "Drama"⟩, ⟨3, some "Comedy"⟩]).count g) ∧
          (∀ k ∈ l2, (userTokens [⟨5, some "Drama"⟩, ⟨3, some "Comedy"⟩]).count k ≤
            (userTokens [⟨5, some "Drama"⟩, ⟨3, some "Comedy"⟩]).count g)) :=
  userFavoriteGenre_spec [⟨5, some "Drama"⟩, ⟨3, some "Comedy"⟩]

end FeatureEngineering
